import Mathlib

/-!
# Verification of the order-block / break-of-structure detector

Shallow embedding of the repository's core scan
(`order_block_detector.py`, its duplicated script variant in `work.py`,
and the structure-low preparation in `data_processor.py`), together with
theorems settling the specification claims about it.

Prices are modelled as rationals (the code only compares, min/maxes and
copies them, so exact arithmetic is a faithful model of the float
operations actually performed on well-formed finite inputs).
Indices are natural numbers (Python list positions); index differences
are compared over `Int`, exactly as Python's unbounded integers behave.
-/

namespace TechInd

/-- `utils.RANGE_CANDLE`: the detection window `W`. -/
def RANGE_CANDLE : Nat := 15

/-- `utils.SHOW_BEARISH_BOS`: module-level flag read by `__init__`. -/
def SHOW_BEARISH_BOS : Bool := true

/-- `utils.SHOW_BULLISH_BOS`: module-level flag read by `__init__`. -/
def SHOW_BULLISH_BOS : Bool := true

/-- One row of the prepared DataFrame: the columns the detector reads,
plus `name` (the row's DataFrame index label, i.e. its timestamp:
`row.name = data.index[i]`). -/
structure Candle where
  name : Int
  Open : ℚ
  High : ℚ
  Low : ℚ
  Close : ℚ
  StructureLow : ℚ
deriving DecidableEq, Repr, Inhabited

/-- An order-block tuple `(anchor index, top, bottom)` exactly as appended by
the source: `(last_up_index, last_high, last_up_low)` for short boxes and
`(last_down_index, last_down, last_low)` for long boxes. -/
abbrev Box := Nat × ℚ × ℚ

/-- A BOS line tuple `(fromTime, fromPrice, toTime, toPrice, colour mode)`;
mode `0` is bearish (red), mode `1` is bullish (green). -/
abbrev BosLine := Int × ℚ × Int × ℚ × Nat

/-- `data.index[j]` (the timestamp label of row `j`). -/
def index (data : List Candle) (j : Nat) : Int :=
  (data.getD j default).name

/-- The mutable attributes of `OrderBlockDetector` (the lists plus the
swing-state scalars), which are also exactly the local variables of
`work.py`'s `detect_order_blocks_bos`. -/
structure DetectorState where
  long_boxes : List Box
  short_boxes : List Box
  bos_lines : List BosLine
  last_down_index : Nat
  last_down : ℚ
  last_low : ℚ
  last_up_index : Nat
  last_long_index : Nat
  last_up_low : ℚ
  last_high : ℚ
deriving DecidableEq, Repr

/-- `__init__` lines 36-40: empty collections, all swing scalars zero. -/
def initState : DetectorState :=
  { long_boxes := [], short_boxes := [], bos_lines := [],
    last_down_index := 0, last_down := 0, last_low := 0,
    last_up_index := 0, last_long_index := 0, last_up_low := 0,
    last_high := 0 }

/-- The body of the `for box in self.short_boxes[:]` loop in
`_detect_short_boxes` (lines 78-90): invalidate a short box whose top the
close exceeds, and on invalidation possibly create a long box, emit a
bullish BOS line, and update `last_long_index`. -/
def shortLoopStep (data : List Candle) (show_bullish_bos : Bool)
    (row : Candle) (i : Nat) (s : DetectorState) (box : Box) :
    DetectorState :=
  if row.Close > box.2.1 then
    let s1 := { s with short_boxes := s.short_boxes.erase box }
    if (i : Int) - (s1.last_down_index : Int) < 1000 ∧ s1.last_long_index < i then
      let s2 := { s1 with
        long_boxes := s1.long_boxes ++
          [(s1.last_down_index, s1.last_down, s1.last_low)] }
      let s3 :=
        if show_bullish_bos then
          { s2 with bos_lines := s2.bos_lines ++
              [(index data s2.last_down_index, s2.last_down,
                row.name, s2.last_down, 1)] }
        else s2
      { s3 with last_long_index := i }
    else s1
  else s

/-- Step A of the scan (lines 67-76 of `_detect_short_boxes`): on a bearish
structure break, if the last bullish candle is within the lookback, create a
short box and (flag permitting) a bearish BOS line. -/
def stepA (data : List Candle) (show_bearish_bos : Bool)
    (s : DetectorState) (row : Candle) (i : Nat) : DetectorState :=
  if row.Low < row.StructureLow then
    if (i : Int) - (s.last_up_index : Int) < 1000 then
      let sA := { s with short_boxes := s.short_boxes ++
          [(s.last_up_index, s.last_high, s.last_up_low)] }
      if show_bearish_bos then
        { sA with bos_lines := sA.bos_lines ++
            [(index data sA.last_up_index, sA.last_up_low,
              index data i, sA.last_up_low, 0)] }
      else sA
    else s
  else s

/-- Step B of the scan (lines 78-90): fold the invalidation body over a
snapshot of the current short-box list. -/
def stepB (data : List Candle) (show_bullish_bos : Bool)
    (s : DetectorState) (row : Candle) (i : Nat) : DetectorState :=
  s.short_boxes.foldl (shortLoopStep data show_bullish_bos row i) s

/-- `OrderBlockDetector._detect_short_boxes` (the leading underscore of the
Python name is dropped): Step A followed by Step B. -/
def detect_short_boxes (data : List Candle)
    (show_bearish_bos show_bullish_bos : Bool)
    (s : DetectorState) (row : Candle) (i : Nat) : DetectorState :=
  let s1 :=
    if row.Low < row.StructureLow then
      if (i : Int) - (s.last_up_index : Int) < 1000 then
        let sA := { s with short_boxes := s.short_boxes ++
            [(s.last_up_index, s.last_high, s.last_up_low)] }
        if show_bearish_bos then
          { sA with bos_lines := sA.bos_lines ++
              [(index data sA.last_up_index, sA.last_up_low,
                index data i, sA.last_up_low, 0)] }
        else sA
      else s
    else s
  s1.short_boxes.foldl (shortLoopStep data show_bullish_bos row i) s1

/-- `OrderBlockDetector._detect_long_boxes` (lines 99-101, Step C):
remove every long box whose bottom the close undercuts, iterating over a
snapshot. -/
def detect_long_boxes (s : DetectorState) (row : Candle) : DetectorState :=
  s.long_boxes.foldl
    (fun t box =>
      if row.Close < box.2.2 then
        { t with long_boxes := t.long_boxes.erase box }
      else t) s

/-- `OrderBlockDetector._update_last_indices` (lines 111-120, Step D):
swing-state update, then the unconditional running-extreme accumulation. -/
def update_last_indices (s : DetectorState) (row : Candle) (i : Nat) :
    DetectorState :=
  let s1 :=
    if row.Close < row.Open then
      { s with
        last_down := row.High
        last_down_index := i
        last_low := row.Low }
    else s
  let s2 :=
    if row.Close > row.Open then
      { s1 with
        last_up_index := i
        last_up_low := row.Low
        last_high := row.High }
    else s1
  { s2 with
    last_high := max row.High s2.last_high
    last_low := min row.Low s2.last_low }

/-- The body of the scan loop in `detect_order_blocks_bos` (lines 52-56):
the three method calls, in source order. -/
def loopBody (data : List Candle) (show_bearish_bos show_bullish_bos : Bool)
    (s : DetectorState) (i : Nat) : DetectorState :=
  let row := data.getD i default
  update_last_indices
    (detect_long_boxes
      (detect_short_boxes data show_bearish_bos show_bullish_bos s row i)
      row)
    row i

/-- The detector state after the first `k` iterations of the scan loop
(`i` ranging over `RANGE_CANDLE`, `RANGE_CANDLE + 1`, ...). -/
def scanState (data : List Candle) (show_bearish_bos show_bullish_bos : Bool)
    (k : Nat) : DetectorState :=
  (List.range' RANGE_CANDLE k).foldl
    (loopBody data show_bearish_bos show_bullish_bos) initState

/-- `OrderBlockDetector.detect_order_blocks_bos`: run the scan over
`range(self.range_candle, len(self.data))` and return the three
collections. The two flag parameters are the attributes that `__init__`
populates from `utils.SHOW_BEARISH_BOS` / `utils.SHOW_BULLISH_BOS`. -/
def detect_order_blocks_bos (data : List Candle)
    (show_bearish_bos show_bullish_bos : Bool) :
    List Box × List Box × List BosLine :=
  let s := scanState data show_bearish_bos show_bullish_bos
    (data.length - RANGE_CANDLE)
  (s.long_boxes, s.short_boxes, s.bos_lines)

namespace Work

/-- `work.py` line 8: its own copy of the window constant. -/
def RANGE_CANDLE : Nat := 15

/-- `work.py` line 11. -/
def SHOW_BEARISH_BOS : Bool := true

/-- `work.py` line 12. -/
def SHOW_BULLISH_BOS : Bool := true

/-- The body of the scan loop of the module-level `detect_order_blocks_bos`
in `work.py` (lines 222-275).  It is written here as one monolithic function,
exactly as the script has it: the short-box block, the (guarded) short-box
invalidation loop, the (guarded) long-box invalidation loop, then the swing
update.  The two `if len(...) > 0` guards are vacuous guards present in the
script but not in the class method. -/
def loopBody (data : List Candle) (s : DetectorState) (i : Nat) :
    DetectorState :=
  let row := data.getD i default
  let s1 :=
    if row.Low < row.StructureLow then
      if (i : Int) - (s.last_up_index : Int) < 1000 then
        let sA := { s with short_boxes := s.short_boxes ++
            [(s.last_up_index, s.last_high, s.last_up_low)] }
        if SHOW_BEARISH_BOS then
          { sA with bos_lines := sA.bos_lines ++
              [(index data sA.last_up_index, sA.last_up_low,
                index data i, sA.last_up_low, 0)] }
        else sA
      else s
    else s
  let s2 :=
    if 0 < s1.short_boxes.length then
      s1.short_boxes.foldl
        (fun t box =>
          if row.Close > box.2.1 then
            let t1 := { t with short_boxes := t.short_boxes.erase box }
            if (i : Int) - (t1.last_down_index : Int) < 1000 ∧
                t1.last_long_index < i then
              let t2 := { t1 with
                long_boxes := t1.long_boxes ++
                  [(t1.last_down_index, t1.last_down, t1.last_low)] }
              let t3 :=
                if SHOW_BULLISH_BOS then
                  { t2 with bos_lines := t2.bos_lines ++
                      [(index data t2.last_down_index, t2.last_down,
                        row.name, t2.last_down, 1)] }
                else t2
              { t3 with last_long_index := i }
            else t1
          else t) s1
    else s1
  let s3 :=
    if 0 < s2.long_boxes.length then
      s2.long_boxes.foldl
        (fun t box =>
          if row.Close < box.2.2 then
            { t with long_boxes := t.long_boxes.erase box }
          else t) s2
    else s2
  let s4 :=
    if row.Close < row.Open then
      { s3 with
        last_down := row.High
        last_down_index := i
        last_low := row.Low }
    else s3
  let s5 :=
    if row.Close > row.Open then
      { s4 with
        last_up_index := i
        last_up_low := row.Low
        last_high := row.High }
    else s4
  { s5 with
    last_high := max row.High s5.last_high
    last_low := min row.Low s5.last_low }

/-- `work.py` `detect_order_blocks_bos` (lines 196-277): zero-initialised
locals, the scan loop, and the returned triple. -/
def detect_order_blocks_bos (data : List Candle) :
    List Box × List Box × List BosLine :=
  let final := (List.range' RANGE_CANDLE (data.length - RANGE_CANDLE)).foldl
    (loopBody data)
    { long_boxes := [], short_boxes := [], bos_lines := [],
      last_down_index := 0, last_down := 0, last_low := 0,
      last_up_index := 0, last_long_index := 0, last_up_low := 0,
      last_high := 0 }
  (final.long_boxes, final.short_boxes, final.bos_lines)

end Work

/-- pandas `data["Low"].rolling(window=RANGE_CANDLE).min()` evaluated at
series position `j`: the minimum of the window of `RANGE_CANDLE` values
ending at `j`, or missing (`NaN`) while fewer than `RANGE_CANDLE` values are
available (positions beyond the series carry no value). -/
def rolling_min (low : List ℚ) (j : Nat) : Option ℚ :=
  if RANGE_CANDLE ≤ j + 1 ∧ j < low.length then
    ((low.drop (j + 1 - RANGE_CANDLE)).take RANGE_CANDLE).min?
  else none

/-- `data_processor.calculate_structure_low` (line 47-48): the rolling
minimum shifted down by one position (`.shift(1)`), read at position `i`
of the `StructureLow` column. -/
def calculate_structure_low (low : List ℚ) (i : Nat) : Option ℚ :=
  if i = 0 then none else rolling_min low (i - 1)

/-- Strictly increasing timestamps (the DataFrame index is strictly
chronological). -/
def StrictTimes (data : List Candle) : Prop :=
  data.Pairwise (fun a b => a.name < b.name)

instance (data : List Candle) : Decidable (StrictTimes data) := by
  unfold StrictTimes; infer_instance

/-- Every candle's high is at least its low (well-formed OHLC data). -/
def WellFormed (data : List Candle) : Prop :=
  ∀ c ∈ data, c.Low ≤ c.High

instance (data : List Candle) : Decidable (WellFormed data) := by
  unfold WellFormed
  infer_instance

/-- `t` agrees with `s` on the swing-state scalars (the fields written only
by Step D) and on `last_down_index`/`last_up_index`. -/
def SameSwing (s t : DetectorState) : Prop :=
  t.last_down_index = s.last_down_index ∧ t.last_down = s.last_down ∧
  t.last_low = s.last_low ∧ t.last_up_index = s.last_up_index ∧
  t.last_up_low = s.last_up_low ∧ t.last_high = s.last_high

/-- `s` and `t` agree on every field except possibly `bos_lines`. -/
def SameExceptLines (s t : DetectorState) : Prop :=
  s.long_boxes = t.long_boxes ∧ s.short_boxes = t.short_boxes ∧
  s.last_down_index = t.last_down_index ∧ s.last_down = t.last_down ∧
  s.last_low = t.last_low ∧ s.last_up_index = t.last_up_index ∧
  s.last_long_index = t.last_long_index ∧ s.last_up_low = t.last_up_low ∧
  s.last_high = t.last_high

/-- Sixteen candles: fifteen flat dojis (open = close = high = low = 10)
followed, at the first scanned position `i = 15`, by a doji whose low `9`
breaks the structure low `10`.  No bullish and no bearish candle is ever
scanned, so every swing scalar is still at its zero initialisation when the
break fires. -/
def demoData0 : List Candle :=
  (List.range 15).map (fun j => ⟨j, 10, 10, 10, 10, 0⟩) ++
    [⟨15, 10, 10, 9, 10, 10⟩]

/-- Nineteen candles: flat dojis, then a low of `5` at the unscanned
position `14`, a bearish candle at `15` (high `11`, low `8`), a doji at `16`
whose low `6` drags the running low below the bearish candle's own low, a
bullish candle at `17`, and a break-and-invalidate candle at `18`
(low `4 <` structure low `5`, close `11 >` the short box top `10`). -/
def data1 : List Candle :=
  (List.range 14).map (fun j => ⟨j, 10, 10, 10, 10, 0⟩) ++
    [⟨14, 10, 10, 5, 10, 0⟩,
     ⟨15, 10, 11, 8, 9, 5⟩,
     ⟨16, 9, 9, 6, 9, 5⟩,
     ⟨17, 9, 10, 9, 10, 5⟩,
     ⟨18, 11, 12, 4, 11, 5⟩]

/-- Nineteen candles exercising same-candle creation and invalidation of a
long box: a short box `(15, 100, 91)` is created at `16`; the candle at `17`
is bearish with the (numerically legal) low field `500`, so the running low
is reset to `500`; at `18` the close `200` invalidates the short box,
creates the long box `(17, 90, 500)`, and Step C removes that same long box
in the same iteration because `200 < 500`. -/
def data2 : List Candle :=
  (List.range 14).map (fun j => ⟨j, 100, 100, 100, 100, 0⟩) ++
    [⟨14, 100, 100, 90, 100, 0⟩,
     ⟨15, 95, 100, 91, 100, 90⟩,
     ⟨16, 90, 92, 89, 90, 90⟩,
     ⟨17, 90, 90, 500, 80, 89⟩,
     ⟨18, 200, 210, 190, 200, 89⟩]

/-- A three-candle sequence: shorter than the fifteen-candle window. -/
def dataShort : List Candle :=
  [⟨0, 1, 2, 1, 1, 0⟩, ⟨1, 1, 2, 1, 1, 0⟩, ⟨2, 1, 2, 1, 1, 0⟩]

/-- A sixteen-entry Low series used to witness the structure-low theorem. -/
def lows0 : List ℚ :=
  [10, 10, 10, 10, 10, 10, 10, 10, 10, 10, 10, 10, 10, 10, 5, 8]

/-! ## Generic fold helpers -/

theorem foldl_inv {σ α : Type _} {P : σ → Prop} {f : σ → α → σ}
    (hf : ∀ t a, P t → P (f t a)) :
    ∀ (l : List α) (s : σ), P s → P (l.foldl f s) := by
  intro l
  induction l with
  | nil => exact fun s hs => hs
  | cons a l ih => exact fun s hs => ih _ (hf _ _ hs)

theorem foldl_congr_fun {σ α : Type _} {f g : σ → α → σ}
    (h : ∀ t a, f t a = g t a) :
    ∀ (l : List α) (s : σ), l.foldl f s = l.foldl g s := by
  intro l
  induction l with
  | nil => exact fun s => rfl
  | cons a l ih =>
    intro s
    rw [List.foldl_cons, List.foldl_cons, h, ih]

theorem foldl_rel {σ τ α : Type _} {R : σ → τ → Prop}
    {f : σ → α → σ} {g : τ → α → τ}
    (h : ∀ s t a, R s t → R (f s a) (g t a)) :
    ∀ (l : List α) (s : σ) (t : τ), R s t → R (l.foldl f s) (l.foldl g t) := by
  intro l
  induction l with
  | nil => exact fun s t hst => hst
  | cons a l ih => exact fun s t hst => ih _ _ (h _ _ _ hst)

theorem range'_succ_right (s n : Nat) :
    List.range' s (n + 1) = List.range' s n ++ [s + n] := by
  have := @List.range'_concat 1 s n
  simpa using this

/-! ## Field lemmas for the step functions -/

theorem SameSwing.swing_refl (s : DetectorState) : SameSwing s s :=
  ⟨Eq.refl _, Eq.refl _, Eq.refl _, Eq.refl _, Eq.refl _, Eq.refl _⟩

theorem SameSwing.trans {s t u : DetectorState}
    (hst : SameSwing s t) (htu : SameSwing t u) : SameSwing s u :=
  ⟨htu.1.trans hst.1, htu.2.1.trans hst.2.1, htu.2.2.1.trans hst.2.2.1,
    htu.2.2.2.1.trans hst.2.2.2.1, htu.2.2.2.2.1.trans hst.2.2.2.2.1,
    htu.2.2.2.2.2.trans hst.2.2.2.2.2⟩

theorem shortLoopStep_swing (data : List Candle) (sbl : Bool) (row : Candle)
    (i : Nat) (s : DetectorState) (box : Box) :
    SameSwing s (shortLoopStep data sbl row i s box) := by
  unfold SameSwing shortLoopStep
  by_cases h1 : row.Close > box.2.1
  · by_cases h2 : (i : Int) - (s.last_down_index : Int) < 1000 ∧
        s.last_long_index < i
    · by_cases h3 : sbl = true <;> simp [h1, h2, h3]
    · simp [h1, h2]
  · simp [h1]

theorem shortLoopStep_short_boxes (data : List Candle) (sbl : Bool)
    (row : Candle) (i : Nat) (s : DetectorState) (box : Box) :
    (shortLoopStep data sbl row i s box).short_boxes =
      if row.Close > box.2.1 then s.short_boxes.erase box
      else s.short_boxes := by
  unfold shortLoopStep
  by_cases h1 : row.Close > box.2.1
  · by_cases h2 : (i : Int) - (s.last_down_index : Int) < 1000 ∧
        s.last_long_index < i
    · by_cases h3 : sbl = true <;> simp [h1, h2, h3]
    · simp [h1, h2]
  · simp [h1]

theorem shortLoopStep_long_boxes (data : List Candle) (sbl : Bool)
    (row : Candle) (i : Nat) (s : DetectorState) (box : Box) :
    (shortLoopStep data sbl row i s box).long_boxes =
      if row.Close > box.2.1 ∧ (i : Int) - (s.last_down_index : Int) < 1000 ∧
          s.last_long_index < i then
        s.long_boxes ++ [(s.last_down_index, s.last_down, s.last_low)]
      else s.long_boxes := by
  unfold shortLoopStep
  by_cases h1 : row.Close > box.2.1
  · by_cases h2 : (i : Int) - (s.last_down_index : Int) < 1000 ∧
        s.last_long_index < i
    · by_cases h3 : sbl = true <;> simp [h1, h2, h3]
    · simp [h1, h2]
  · simp [h1]

theorem shortLoopStep_last_long_index (data : List Candle) (sbl : Bool)
    (row : Candle) (i : Nat) (s : DetectorState) (box : Box) :
    (shortLoopStep data sbl row i s box).last_long_index =
      if row.Close > box.2.1 ∧ (i : Int) - (s.last_down_index : Int) < 1000 ∧
          s.last_long_index < i then i
      else s.last_long_index := by
  unfold shortLoopStep
  by_cases h1 : row.Close > box.2.1
  · by_cases h2 : (i : Int) - (s.last_down_index : Int) < 1000 ∧
        s.last_long_index < i
    · by_cases h3 : sbl = true <;> simp [h1, h2, h3]
    · simp [h1, h2]
  · simp [h1]

theorem shortLoopStep_bos_lines (data : List Candle) (sbl : Bool)
    (row : Candle) (i : Nat) (s : DetectorState) (box : Box) :
    (shortLoopStep data sbl row i s box).bos_lines =
      if row.Close > box.2.1 ∧ ((i : Int) - (s.last_down_index : Int) < 1000 ∧
          s.last_long_index < i) ∧ sbl = true then
        s.bos_lines ++ [(index data s.last_down_index, s.last_down,
          row.name, s.last_down, 1)]
      else s.bos_lines := by
  unfold shortLoopStep
  by_cases h1 : row.Close > box.2.1
  · by_cases h2 : (i : Int) - (s.last_down_index : Int) < 1000 ∧
        s.last_long_index < i
    · by_cases h3 : sbl = true <;> simp [h1, h2, h3]
    · simp [h1, h2]
  · simp [h1]

theorem stepA_swing (data : List Candle) (sb : Bool) (s : DetectorState)
    (row : Candle) (i : Nat) : SameSwing s (stepA data sb s row i) := by
  unfold SameSwing stepA
  by_cases h1 : row.Low < row.StructureLow
  · by_cases h2 : (i : Int) - (s.last_up_index : Int) < 1000
    · by_cases h3 : sb = true <;> simp [h1, h2, h3]
    · simp [h1, h2]
  · simp [h1]

theorem stepA_short_boxes (data : List Candle) (sb : Bool)
    (s : DetectorState) (row : Candle) (i : Nat) :
    (stepA data sb s row i).short_boxes =
      if row.Low < row.StructureLow ∧ (i : Int) - (s.last_up_index : Int) < 1000 then
        s.short_boxes ++ [(s.last_up_index, s.last_high, s.last_up_low)]
      else s.short_boxes := by
  unfold stepA
  by_cases h1 : row.Low < row.StructureLow
  · by_cases h2 : (i : Int) - (s.last_up_index : Int) < 1000
    · by_cases h3 : sb = true <;> simp [h1, h2, h3]
    · simp [h1, h2]
  · simp [h1]

theorem stepA_bos_lines (data : List Candle) (sb : Bool)
    (s : DetectorState) (row : Candle) (i : Nat) :
    (stepA data sb s row i).bos_lines =
      if row.Low < row.StructureLow ∧
          (i : Int) - (s.last_up_index : Int) < 1000 ∧ sb = true then
        s.bos_lines ++ [(index data s.last_up_index, s.last_up_low,
          index data i, s.last_up_low, 0)]
      else s.bos_lines := by
  unfold stepA
  by_cases h1 : row.Low < row.StructureLow
  · by_cases h2 : (i : Int) - (s.last_up_index : Int) < 1000
    · by_cases h3 : sb = true <;> simp [h1, h2, h3]
    · simp [h1, h2]
  · simp [h1]

theorem stepA_long_boxes (data : List Candle) (sb : Bool)
    (s : DetectorState) (row : Candle) (i : Nat) :
    (stepA data sb s row i).long_boxes = s.long_boxes := by
  unfold stepA
  by_cases h1 : row.Low < row.StructureLow
  · by_cases h2 : (i : Int) - (s.last_up_index : Int) < 1000
    · by_cases h3 : sb = true <;> simp [h1, h2, h3]
    · simp [h1, h2]
  · simp [h1]

theorem stepA_last_long_index (data : List Candle) (sb : Bool)
    (s : DetectorState) (row : Candle) (i : Nat) :
    (stepA data sb s row i).last_long_index = s.last_long_index := by
  unfold stepA
  by_cases h1 : row.Low < row.StructureLow
  · by_cases h2 : (i : Int) - (s.last_up_index : Int) < 1000
    · by_cases h3 : sb = true <;> simp [h1, h2, h3]
    · simp [h1, h2]
  · simp [h1]

theorem stepB_swing (data : List Candle) (sbl : Bool) (s : DetectorState)
    (row : Candle) (i : Nat) : SameSwing s (stepB data sbl s row i) := by
  unfold stepB
  exact foldl_inv
    (fun t b ht => ht.trans (shortLoopStep_swing data sbl row i t b))
    s.short_boxes s (SameSwing.swing_refl s)

theorem detect_long_boxes_swing (s : DetectorState) (row : Candle) :
    SameSwing s (detect_long_boxes s row) := by
  unfold detect_long_boxes
  refine foldl_inv (fun t b ht => ?_) s.long_boxes s (SameSwing.swing_refl s)
  split
  · exact ht.trans ⟨Eq.refl _, Eq.refl _, Eq.refl _, Eq.refl _, Eq.refl _, Eq.refl _⟩
  · exact ht

theorem detect_long_boxes_short_boxes (s : DetectorState) (row : Candle) :
    (detect_long_boxes s row).short_boxes = s.short_boxes := by
  unfold detect_long_boxes
  refine foldl_inv (P := fun t => t.short_boxes = s.short_boxes)
    (fun t b ht => ?_) s.long_boxes s (Eq.refl _)
  split
  · exact ht
  · exact ht

theorem detect_long_boxes_bos_lines (s : DetectorState) (row : Candle) :
    (detect_long_boxes s row).bos_lines = s.bos_lines := by
  unfold detect_long_boxes
  refine foldl_inv (P := fun t => t.bos_lines = s.bos_lines)
    (fun t b ht => ?_) s.long_boxes s (Eq.refl _)
  split
  · exact ht
  · exact ht

theorem detect_long_boxes_last_long_index (s : DetectorState) (row : Candle) :
    (detect_long_boxes s row).last_long_index = s.last_long_index := by
  unfold detect_long_boxes
  refine foldl_inv (P := fun t => t.last_long_index = s.last_long_index)
    (fun t b ht => ?_) s.long_boxes s (Eq.refl _)
  split
  · exact ht
  · exact ht

theorem detect_long_boxes_long_mem {s : DetectorState} {row : Candle} :
    ∀ b ∈ (detect_long_boxes s row).long_boxes, b ∈ s.long_boxes := by
  unfold detect_long_boxes
  refine foldl_inv (P := fun t => ∀ b ∈ t.long_boxes, b ∈ s.long_boxes)
    (fun t a ht => ?_) s.long_boxes s (fun b hb => hb)
  split
  · exact fun b hb => ht b (List.mem_of_mem_erase hb)
  · exact ht

theorem update_last_indices_long_boxes (s : DetectorState) (row : Candle)
    (i : Nat) : (update_last_indices s row i).long_boxes = s.long_boxes := by
  unfold update_last_indices
  by_cases h1 : row.Close < row.Open
  · by_cases h2 : row.Close > row.Open <;> simp [h1, h2]
  · by_cases h2 : row.Close > row.Open <;> simp [h1, h2]

theorem update_last_indices_short_boxes (s : DetectorState) (row : Candle)
    (i : Nat) : (update_last_indices s row i).short_boxes = s.short_boxes := by
  unfold update_last_indices
  by_cases h1 : row.Close < row.Open
  · by_cases h2 : row.Close > row.Open <;> simp [h1, h2]
  · by_cases h2 : row.Close > row.Open <;> simp [h1, h2]

theorem update_last_indices_bos_lines (s : DetectorState) (row : Candle)
    (i : Nat) : (update_last_indices s row i).bos_lines = s.bos_lines := by
  unfold update_last_indices
  by_cases h1 : row.Close < row.Open
  · by_cases h2 : row.Close > row.Open <;> simp [h1, h2]
  · by_cases h2 : row.Close > row.Open <;> simp [h1, h2]

theorem update_last_indices_last_long_index (s : DetectorState) (row : Candle)
    (i : Nat) :
    (update_last_indices s row i).last_long_index = s.last_long_index := by
  unfold update_last_indices
  by_cases h1 : row.Close < row.Open
  · by_cases h2 : row.Close > row.Open <;> simp [h1, h2]
  · by_cases h2 : row.Close > row.Open <;> simp [h1, h2]

theorem update_last_indices_last_down (s : DetectorState) (row : Candle)
    (i : Nat) : (update_last_indices s row i).last_down =
      if row.Close < row.Open then row.High else s.last_down := by
  unfold update_last_indices
  by_cases h1 : row.Close < row.Open
  · by_cases h2 : row.Close > row.Open <;> simp [h1, h2]
  · by_cases h2 : row.Close > row.Open <;> simp [h1, h2]

theorem update_last_indices_last_down_index (s : DetectorState) (row : Candle)
    (i : Nat) : (update_last_indices s row i).last_down_index =
      if row.Close < row.Open then i else s.last_down_index := by
  unfold update_last_indices
  by_cases h1 : row.Close < row.Open
  · by_cases h2 : row.Close > row.Open <;> simp [h1, h2]
  · by_cases h2 : row.Close > row.Open <;> simp [h1, h2]

theorem update_last_indices_last_low (s : DetectorState) (row : Candle)
    (i : Nat) : (update_last_indices s row i).last_low =
      min row.Low (if row.Close < row.Open then row.Low else s.last_low) := by
  unfold update_last_indices
  by_cases h1 : row.Close < row.Open
  · by_cases h2 : row.Close > row.Open <;> simp [h1, h2]
  · by_cases h2 : row.Close > row.Open <;> simp [h1, h2]

theorem update_last_indices_last_high (s : DetectorState) (row : Candle)
    (i : Nat) : (update_last_indices s row i).last_high =
      max row.High (if row.Close > row.Open then row.High else s.last_high) := by
  unfold update_last_indices
  by_cases h1 : row.Close < row.Open
  · by_cases h2 : row.Close > row.Open <;> simp [h1, h2]
  · by_cases h2 : row.Close > row.Open <;> simp [h1, h2]

theorem update_last_indices_last_up_index (s : DetectorState) (row : Candle)
    (i : Nat) : (update_last_indices s row i).last_up_index =
      if row.Close > row.Open then i else s.last_up_index := by
  unfold update_last_indices
  by_cases h1 : row.Close < row.Open
  · by_cases h2 : row.Close > row.Open <;> simp [h1, h2]
  · by_cases h2 : row.Close > row.Open <;> simp [h1, h2]

theorem update_last_indices_last_up_low (s : DetectorState) (row : Candle)
    (i : Nat) : (update_last_indices s row i).last_up_low =
      if row.Close > row.Open then row.Low else s.last_up_low := by
  unfold update_last_indices
  by_cases h1 : row.Close < row.Open
  · by_cases h2 : row.Close > row.Open <;> simp [h1, h2]
  · by_cases h2 : row.Close > row.Open <;> simp [h1, h2]

theorem detect_short_boxes_eq (data : List Candle) (sb sbl : Bool)
    (s : DetectorState) (row : Candle) (i : Nat) :
    detect_short_boxes data sb sbl s row i =
      stepB data sbl (stepA data sb s row i) row i := by
  rfl

theorem scanState_succ (data : List Candle) (sb sbl : Bool) (k : Nat) :
    scanState data sb sbl (k + 1) =
      loopBody data sb sbl (scanState data sb sbl k) (RANGE_CANDLE + k) := by
  unfold scanState
  rw [range'_succ_right, List.foldl_append]
  rfl

theorem ite_length_foldl {σ α : Type _} (f : σ → α → σ) (l : List α) (s : σ) :
    (if 0 < l.length then l.foldl f s else s) = l.foldl f s := by
  cases l <;> simp

theorem work_loopBody_eq (data : List Candle) (s : DetectorState) (i : Nat) :
    Work.loopBody data s i = loopBody data true true s i := by
  unfold Work.loopBody loopBody detect_short_boxes detect_long_boxes
    update_last_indices shortLoopStep Work.SHOW_BEARISH_BOS
    Work.SHOW_BULLISH_BOS
  simp only [if_true, ite_length_foldl]

/-! ## The claims -/

/-- **C10.** For every input DataFrame and the configuration the scripts
share (window 15, lookback 1000, both line flags true, which is what
`OrderBlockDetector.__init__` reads from `utils`), the module-level
`detect_order_blocks_bos` of `work.py` and the class method
`OrderBlockDetector.detect_order_blocks_bos` return identical triples of
long boxes, short boxes and BOS lines. -/
theorem work_and_class_agree : ∀ data : List Candle,
    Work.detect_order_blocks_bos data =
      detect_order_blocks_bos data SHOW_BEARISH_BOS SHOW_BULLISH_BOS := by
  intro data
  unfold Work.detect_order_blocks_bos detect_order_blocks_bos scanState
  simp only [Work.RANGE_CANDLE, RANGE_CANDLE, SHOW_BEARISH_BOS,
    SHOW_BULLISH_BOS]
  rw [foldl_congr_fun (work_loopBody_eq data)]
  rfl

/-- **C3.** At a scan index whose candle breaks the structure low, a short
block `(lastUpIndex, runningHigh, lastUpLow)` is created if and only if
`i - lastUpIndex < 1000` (so at distance `≥ 1000` the whole state is left
untouched, regardless of any other condition), and when bearish-line
emission is enabled the bearish BOS line
`(time[lastUpIndex], lastUpLow, time[i], lastUpLow)` is emitted as well. -/
theorem short_creation_iff (data : List Candle) (sb : Bool)
    (s : DetectorState) (row : Candle) (i : Nat) :
    (row.Low < row.StructureLow →
      ((i : Int) - (s.last_up_index : Int) < 1000 →
        (stepA data sb s row i).short_boxes =
          s.short_boxes ++ [(s.last_up_index, s.last_high, s.last_up_low)] ∧
        (sb = true → (stepA data sb s row i).bos_lines =
          s.bos_lines ++ [(index data s.last_up_index, s.last_up_low,
            index data i, s.last_up_low, 0)])) ∧
      (1000 ≤ (i : Int) - (s.last_up_index : Int) →
        stepA data sb s row i = s)) ∧
    (¬ row.Low < row.StructureLow → stepA data sb s row i = s) := by
  refine ⟨fun hbreak => ⟨fun hlb => ⟨?_, fun hsb => ?_⟩, fun hge => ?_⟩,
    fun hnb => ?_⟩
  · rw [stepA_short_boxes, if_pos ⟨hbreak, hlb⟩]
  · rw [stepA_bos_lines, if_pos ⟨hbreak, hlb, hsb⟩]
  · unfold stepA
    rw [if_pos hbreak, if_neg (not_lt.mpr hge)]
  · unfold stepA
    rw [if_neg hnb]

/-- Witness for C3, at the concrete break candle of `demoData0`. -/
theorem short_creation_iff_witness :
    ((9 : ℚ) < 10 ∧ (15 : Int) - ((0 : Nat) : Int) < 1000) ∧
    (stepA demoData0 true initState ⟨15, 10, 10, 9, 10, 10⟩ 15).short_boxes =
      [(0, 0, 0)] := by
  refine ⟨⟨by norm_num, by decide⟩, ?_⟩
  have h := (((short_creation_iff demoData0 true initState
    ⟨15, 10, 10, 9, 10, 10⟩ 15).1 (by norm_num)).1 (by decide)).1
  simpa [initState] using h

/-- Counterexample to **C1** as stated: on `data1` the detector creates the
long box `(15, 11, 6)` — anchored at candle 15, the most recently observed
bearish candle (candles 16–18 are not bearish) — but its bottom is `6`, the
min-accumulated running low, not that bearish candle's own low `8`. -/
theorem long_bottom_counterexample :
    (detect_order_blocks_bos data1 true true).1 = [(15, 11, 6)] ∧
    (data1.getD 15 default).Close < (data1.getD 15 default).Open ∧
    ¬ (data1.getD 16 default).Close < (data1.getD 16 default).Open ∧
    ¬ (data1.getD 17 default).Close < (data1.getD 17 default).Open ∧
    ¬ (data1.getD 18 default).Close < (data1.getD 18 default).Open ∧
    (data1.getD 15 default).Low = 8 ∧ ((6 : ℚ) ≠ 8) := by
  decide

/-- **C1 (amended).** When a short block with `close[i] > block.top` is
invalidated, a long block is created if and only if
`i - lastDownIndex < 1000` and `i > lastLongGuardIndex`; the block created
is `(lastDownIndex, lastDownHigh, runningLow)` — its top is the high of the
most recently observed bearish candle, but its bottom is the *running low*
(`last_low`, min-accumulated over every candle since the last bearish
reset), not that candle's own low.  After a creation the guard is set to
`i`; when the guard blocks (`i ≤ lastLongGuardIndex`) nothing is created
and the guard is unchanged. -/
theorem long_creation_on_invalidation (data : List Candle) (sbl : Bool)
    (row : Candle) (i : Nat) (t : DetectorState) (b : Box)
    (hinv : row.Close > b.2.1) :
    (shortLoopStep data sbl row i t b).short_boxes = t.short_boxes.erase b ∧
    ((i : Int) - (t.last_down_index : Int) < 1000 ∧ t.last_long_index < i →
      (shortLoopStep data sbl row i t b).long_boxes =
        t.long_boxes ++ [(t.last_down_index, t.last_down, t.last_low)] ∧
      (shortLoopStep data sbl row i t b).last_long_index = i) ∧
    (¬ ((i : Int) - (t.last_down_index : Int) < 1000 ∧
        t.last_long_index < i) →
      (shortLoopStep data sbl row i t b).long_boxes = t.long_boxes ∧
      (shortLoopStep data sbl row i t b).last_long_index =
        t.last_long_index) ∧
    (i ≤ t.last_long_index →
      (shortLoopStep data sbl row i t b).long_boxes = t.long_boxes) := by
  refine ⟨?_, fun hc => ⟨?_, ?_⟩, fun hc => ⟨?_, ?_⟩, fun hguard => ?_⟩
  · rw [shortLoopStep_short_boxes, if_pos hinv]
  · rw [shortLoopStep_long_boxes, if_pos ⟨hinv, hc⟩]
  · rw [shortLoopStep_last_long_index, if_pos ⟨hinv, hc⟩]
  · rw [shortLoopStep_long_boxes, if_neg (fun h => hc ⟨h.2.1, h.2.2⟩)]
  · rw [shortLoopStep_last_long_index, if_neg (fun h => hc ⟨h.2.1, h.2.2⟩)]
  · rw [shortLoopStep_long_boxes,
      if_neg (fun h => absurd h.2.2 (not_lt.mpr hguard))]

/-- Witness for the amended C1, at the invalidation that `data1` performs
at scan index 18 (state as it stands when Step B examines the short box
`(17, 10, 9)`). -/
theorem long_creation_on_invalidation_witness :
    ((11 : ℚ) > 10 ∧ (18 : Int) - ((15 : Nat) : Int) < 1000 ∧
      (0 : Nat) < 18) ∧
    (shortLoopStep data1 true ⟨18, 11, 12, 4, 11, 5⟩ 18
      ⟨[], [(17, 10, 9)], [], 15, 11, 6, 17, 0, 9, 10⟩
      (17, 10, 9)).long_boxes = [(15, 11, 6)] := by
  refine ⟨⟨by norm_num, by decide, by decide⟩, ?_⟩
  have h := (long_creation_on_invalidation data1 true ⟨18, 11, 12, 4, 11, 5⟩
    18 ⟨[], [(17, 10, 9)], [], 15, 11, 6, 17, 0, 9, 10⟩ (17, 10, 9)
    (by norm_num)).2.1 ⟨by decide, by decide⟩
  simpa using h.1

/-- Counterexample to **C5** as stated: on a three-candle input — too short
for the fifteen-candle window — the detector does not report any error; it
returns the perfectly ordinary empty result triple.  (The code defines no
InputError or ConfigError anywhere, performs no validation, and its window
and lookback are unvalidated module constants.) -/
theorem no_input_error_counterexample :
    dataShort.length = 3 ∧
    detect_order_blocks_bos dataShort true true = ([], [], []) := by
  exact ⟨rfl, rfl⟩

/-- **C5 (amended).** The detector performs no input or configuration
validation: on any sequence no longer than the window it simply runs an
empty scan and returns empty collections — no error is reported and no
other output is produced.  (No error channel exists in the code at all;
`RANGE_CANDLE = 15` and the lookback literal `1000` are fixed, unvalidated
constants.) -/
theorem no_validation_short_input (data : List Candle) (sb sbl : Bool)
    (h : data.length ≤ RANGE_CANDLE) :
    detect_order_blocks_bos data sb sbl = ([], [], []) := by
  unfold detect_order_blocks_bos scanState
  rw [Nat.sub_eq_zero_of_le h]
  rfl

/-- Witness for the amended C5. -/
theorem no_validation_short_input_witness :
    dataShort.length ≤ RANGE_CANDLE ∧
    detect_order_blocks_bos dataShort false false = ([], [], []) :=
  ⟨by decide, no_validation_short_input dataShort false false (by decide)⟩

/-- **C2.** The scan body runs the four steps in the fixed order A, B, C, D:
the loop body is literally Step D applied to Step C applied to Step B
applied to Step A (first two conjuncts, with `_detect_short_boxes` split
into its creation half A and invalidation half B); Steps A, B and C never
write the swing scalars, so they observe the swing state from before this
iteration's Step D (the three `SameSwing` conjuncts); the short box that
Step A appends at `i` is in the snapshot Step B folds over at the same `i`
(the membership conjunct); and on `data2` a long box is created in Step B
and removed by Step C within the same (final) candle `18` — the bullish BOS
line with `toTime = 18` is in the output while the long-box set is empty
(the closed conjunct). -/
theorem step_order (data : List Candle) (sb sbl : Bool) (s : DetectorState)
    (row : Candle) (i : Nat) :
    loopBody data sb sbl s i =
      update_last_indices
        (detect_long_boxes
          (stepB data sbl
            (stepA data sb s (data.getD i default) i) (data.getD i default) i)
          (data.getD i default))
        (data.getD i default) i ∧
    detect_short_boxes data sb sbl s row i =
      stepB data sbl (stepA data sb s row i) row i ∧
    SameSwing s (stepA data sb s row i) ∧
    SameSwing s (stepB data sbl s row i) ∧
    SameSwing s (detect_long_boxes s row) ∧
    (row.Low < row.StructureLow →
      (i : Int) - (s.last_up_index : Int) < 1000 →
      (s.last_up_index, s.last_high, s.last_up_low) ∈
        (stepA data sb s row i).short_boxes) ∧
    ((detect_order_blocks_bos data2 true true).1 = [] ∧
      (detect_order_blocks_bos data2 true true).2.2 =
        [(15, 91, 16, 91, 0), (17, 90, 18, 90, 1)]) := by
  refine ⟨rfl, detect_short_boxes_eq data sb sbl s row i,
    stepA_swing data sb s row i, stepB_swing data sbl s row i,
    detect_long_boxes_swing s row, fun hbreak hlb => ?_, by decide⟩
  rw [stepA_short_boxes, if_pos ⟨hbreak, hlb⟩]
  simp

/-- Witness for C2, at the break candle of `demoData0`. -/
theorem step_order_witness :
    ((9 : ℚ) < 10 ∧ (15 : Int) - ((0 : Nat) : Int) < 1000) ∧
    ((0 : Nat), (0 : ℚ), (0 : ℚ)) ∈
      (stepA demoData0 true initState ⟨15, 10, 10, 9, 10, 10⟩ 15).short_boxes := by
  refine ⟨⟨by norm_num, by decide⟩, ?_⟩
  have h := (step_order demoData0 true true initState
    ⟨15, 10, 10, 9, 10, 10⟩ 15).2.2.2.2.2.1 (by norm_num) (by decide)
  simpa [initState] using h

theorem WellFormed.getD_le {data : List Candle} (h : WellFormed data)
    (i : Nat) : (data.getD i default).Low ≤ (data.getD i default).High := by
  by_cases hi : i < data.length
  · rw [List.getD_eq_getElem data default hi]
    exact h _ (List.getElem_mem hi)
  · rw [List.getD_eq_default data default (le_of_not_lt hi)]
    exact le_refl _

theorem loopBody_preserves_bounds (data : List Candle) (sb sbl : Bool)
    (i : Nat) (hrow : (data.getD i default).Low ≤ (data.getD i default).High)
    (s : DetectorState) (h1 : s.last_up_low ≤ s.last_high)
    (h2 : s.last_low ≤ s.last_down)
    (h3 : ∀ b ∈ s.short_boxes, b.2.2 ≤ b.2.1)
    (h4 : ∀ b ∈ s.long_boxes, b.2.2 ≤ b.2.1) :
    (loopBody data sb sbl s i).last_up_low ≤
      (loopBody data sb sbl s i).last_high ∧
    (loopBody data sb sbl s i).last_low ≤
      (loopBody data sb sbl s i).last_down ∧
    (∀ b ∈ (loopBody data sb sbl s i).short_boxes, b.2.2 ≤ b.2.1) ∧
    (∀ b ∈ (loopBody data sb sbl s i).long_boxes, b.2.2 ≤ b.2.1) := by
  set row := data.getD i default with hrowdef
  have hlb : loopBody data sb sbl s i =
      update_last_indices
        (detect_long_boxes
          (stepB data sbl (stepA data sb s row i) row i) row) row i := rfl
  rw [hlb]
  -- Step A
  have hA := stepA_swing data sb s row i
  have hA3 : ∀ b ∈ (stepA data sb s row i).short_boxes, b.2.2 ≤ b.2.1 := by
    rw [stepA_short_boxes]
    split
    · intro b hb
      rcases List.mem_append.1 hb with hb | hb
      · exact h3 b hb
      · rw [List.mem_singleton.1 hb]
        exact h1
    · exact h3
  have hA4 : ∀ b ∈ (stepA data sb s row i).long_boxes, b.2.2 ≤ b.2.1 := by
    rw [stepA_long_boxes]
    exact h4
  -- Step B (fold invariant over the snapshot)
  have hQB : SameSwing s (stepB data sbl (stepA data sb s row i) row i) ∧
      (∀ b ∈ (stepB data sbl (stepA data sb s row i) row i).short_boxes,
        b.2.2 ≤ b.2.1) ∧
      (∀ b ∈ (stepB data sbl (stepA data sb s row i) row i).long_boxes,
        b.2.2 ≤ b.2.1) := by
    unfold stepB
    refine foldl_inv (P := fun t => SameSwing s t ∧
      (∀ b ∈ t.short_boxes, b.2.2 ≤ b.2.1) ∧
      (∀ b ∈ t.long_boxes, b.2.2 ≤ b.2.1)) ?_ _ _ ⟨hA, hA3, hA4⟩
    rintro t box ⟨tsw, ts, tl⟩
    refine ⟨tsw.trans (shortLoopStep_swing data sbl row i t box), ?_, ?_⟩
    · rw [shortLoopStep_short_boxes]
      split
      · exact fun x hx => ts x (List.mem_of_mem_erase hx)
      · exact ts
    · rw [shortLoopStep_long_boxes]
      split
      · intro x hx
        rcases List.mem_append.1 hx with hx | hx
        · exact tl x hx
        · rw [List.mem_singleton.1 hx]
          show t.last_low ≤ t.last_down
          rw [tsw.2.2.1, tsw.2.1]
          exact h2
      · exact tl
  -- Step C
  have hCsw : SameSwing s
      (detect_long_boxes (stepB data sbl (stepA data sb s row i) row i) row) :=
    hQB.1.trans (detect_long_boxes_swing _ row)
  have hC3 : ∀ b ∈ (detect_long_boxes
        (stepB data sbl (stepA data sb s row i) row i) row).short_boxes,
      b.2.2 ≤ b.2.1 := by
    rw [detect_long_boxes_short_boxes]
    exact hQB.2.1
  have hC4 : ∀ b ∈ (detect_long_boxes
        (stepB data sbl (stepA data sb s row i) row i) row).long_boxes,
      b.2.2 ≤ b.2.1 :=
    fun b hb => hQB.2.2 b (detect_long_boxes_long_mem b hb)
  -- Step D
  refine ⟨?_, ?_, ?_, ?_⟩
  · rw [update_last_indices_last_up_low, update_last_indices_last_high]
    by_cases hb : row.Close > row.Open
    · simp only [if_pos hb, max_self]
      exact hrow
    · simp only [if_neg hb]
      refine le_trans ?_ (le_max_right _ _)
      rw [hCsw.2.2.2.2.1, hCsw.2.2.2.2.2]
      exact h1
  · rw [update_last_indices_last_low, update_last_indices_last_down]
    by_cases hd : row.Close < row.Open
    · simp only [if_pos hd, min_self]
      exact hrow
    · simp only [if_neg hd]
      refine le_trans (min_le_right _ _) ?_
      rw [hCsw.2.2.1, hCsw.2.1]
      exact h2
  · rw [update_last_indices_short_boxes]
    exact hC3
  · rw [update_last_indices_long_boxes]
    exact hC4

/-- Counterexample to **C4** as stated: `demoData0` is a well-formed input
(every high is at least its low, all prices finite), yet the long block
`(0, 0, 0)` it produces — created from the zero-initialised swing state —
has `top = bottom = 0`, so `top > bottom` fails. -/
theorem top_eq_bottom_counterexample :
    WellFormed demoData0 ∧
    (detect_order_blocks_bos demoData0 true true).1 = [(0, 0, 0)] ∧
    ¬ ((0 : ℚ) > 0) := by
  refine ⟨by decide, by decide, by norm_num⟩

/-- **C4 (amended).** For every input whose candles all satisfy
`high ≥ low`, every order block ever created satisfies `top ≥ bottom`
(equality is possible, e.g. for blocks anchored at the zero-initialised
swing state).  Formally: at every iteration boundary the swing scalars
satisfy `last_up_low ≤ last_high` and `last_low ≤ last_down` — and since
Steps A–C never write those scalars, these two inequalities bound every box
at its creation site, a short box being `(·, last_high, last_up_low)` and a
long box `(·, last_down, last_low)` — and every box held in either active
collection satisfies `bottom ≤ top`. -/
theorem top_ge_bottom (data : List Candle) (sb sbl : Bool)
    (hwf : WellFormed data) (k : Nat) :
    (scanState data sb sbl k).last_up_low ≤
      (scanState data sb sbl k).last_high ∧
    (scanState data sb sbl k).last_low ≤
      (scanState data sb sbl k).last_down ∧
    (∀ b ∈ (scanState data sb sbl k).short_boxes, b.2.2 ≤ b.2.1) ∧
    (∀ b ∈ (scanState data sb sbl k).long_boxes, b.2.2 ≤ b.2.1) := by
  induction k with
  | zero => simp [scanState, initState]
  | succ k ih =>
    rw [scanState_succ]
    exact loopBody_preserves_bounds data sb sbl (RANGE_CANDLE + k)
      (hwf.getD_le _) _ ih.1 ih.2.1 ih.2.2.1 ih.2.2.2

/-- Witness for the amended C4, on the well-formed input `data1`. -/
theorem top_ge_bottom_witness :
    WellFormed data1 ∧
    (∀ b ∈ (scanState data1 true true 4).long_boxes, b.2.2 ≤ b.2.1) :=
  ⟨by decide, (top_ge_bottom data1 true true (by decide) 4).2.2.2⟩

theorem StrictTimes.index_lt {data : List Candle} (h : StrictTimes data)
    {j1 j2 : Nat} (hj : j1 < j2) (h2 : j2 < data.length) :
    index data j1 < index data j2 := by
  have h1 : j1 < data.length := lt_trans hj h2
  unfold index
  rw [List.getD_eq_getElem data default h1,
    List.getD_eq_getElem data default h2]
  exact (List.pairwise_iff_getElem.1 h) j1 j2 h1 h2 hj

theorem loopBody_preserves_anchors (data : List Candle) (sb sbl : Bool)
    (i : Nat) (hi : i < data.length) (ht : StrictTimes data)
    (s : DetectorState)
    (hu : s.last_up_index < i) (hd : s.last_down_index < i)
    (hs : ∀ b ∈ s.short_boxes, b.1 < i)
    (hl : ∀ b ∈ s.long_boxes, b.1 < i)
    (hline : ∀ l ∈ s.bos_lines, l.1 < l.2.2.1) :
    (loopBody data sb sbl s i).last_up_index < i + 1 ∧
    (loopBody data sb sbl s i).last_down_index < i + 1 ∧
    (∀ b ∈ (loopBody data sb sbl s i).short_boxes, b.1 < i + 1) ∧
    (∀ b ∈ (loopBody data sb sbl s i).long_boxes, b.1 < i + 1) ∧
    (∀ l ∈ (loopBody data sb sbl s i).bos_lines, l.1 < l.2.2.1) := by
  set row := data.getD i default with hrowdef
  have hlb : loopBody data sb sbl s i =
      update_last_indices
        (detect_long_boxes
          (stepB data sbl (stepA data sb s row i) row i) row) row i := rfl
  rw [hlb]
  -- Step A
  have hA := stepA_swing data sb s row i
  have hA_s : ∀ b ∈ (stepA data sb s row i).short_boxes, b.1 < i := by
    rw [stepA_short_boxes]
    split
    · intro b hb
      rcases List.mem_append.1 hb with hb | hb
      · exact hs b hb
      · rw [List.mem_singleton.1 hb]
        exact hu
    · exact hs
  have hA_l : ∀ b ∈ (stepA data sb s row i).long_boxes, b.1 < i := by
    rw [stepA_long_boxes]
    exact hl
  have hA_line : ∀ l ∈ (stepA data sb s row i).bos_lines, l.1 < l.2.2.1 := by
    rw [stepA_bos_lines]
    split
    · intro l hlm
      rcases List.mem_append.1 hlm with hlm | hlm
      · exact hline l hlm
      · rw [List.mem_singleton.1 hlm]
        show index data s.last_up_index < index data i
        exact ht.index_lt hu hi
    · exact hline
  -- Step B
  have hQB : SameSwing s (stepB data sbl (stepA data sb s row i) row i) ∧
      (∀ b ∈ (stepB data sbl (stepA data sb s row i) row i).short_boxes,
        b.1 < i) ∧
      (∀ b ∈ (stepB data sbl (stepA data sb s row i) row i).long_boxes,
        b.1 < i) ∧
      (∀ l ∈ (stepB data sbl (stepA data sb s row i) row i).bos_lines,
        l.1 < l.2.2.1) := by
    unfold stepB
    refine foldl_inv (P := fun t => SameSwing s t ∧
      (∀ b ∈ t.short_boxes, b.1 < i) ∧
      (∀ b ∈ t.long_boxes, b.1 < i) ∧
      (∀ l ∈ t.bos_lines, l.1 < l.2.2.1)) ?_ _ _ ⟨hA, hA_s, hA_l, hA_line⟩
    rintro t box ⟨tsw, ts, tl, tln⟩
    refine ⟨tsw.trans (shortLoopStep_swing data sbl row i t box), ?_, ?_, ?_⟩
    · rw [shortLoopStep_short_boxes]
      split
      · exact fun x hx => ts x (List.mem_of_mem_erase hx)
      · exact ts
    · rw [shortLoopStep_long_boxes]
      split
      · intro x hx
        rcases List.mem_append.1 hx with hx | hx
        · exact tl x hx
        · rw [List.mem_singleton.1 hx]
          show t.last_down_index < i
          rw [tsw.1]
          exact hd
      · exact tl
    · rw [shortLoopStep_bos_lines]
      split
      · intro x hx
        rcases List.mem_append.1 hx with hx | hx
        · exact tln x hx
        · rw [List.mem_singleton.1 hx]
          show index data t.last_down_index < row.name
          rw [tsw.1]
          exact ht.index_lt hd hi
      · exact tln
  -- Step C
  have hCsw : SameSwing s (detect_long_boxes
      (stepB data sbl (stepA data sb s row i) row i) row) :=
    hQB.1.trans (detect_long_boxes_swing _ row)
  have hC_s : ∀ b ∈ (detect_long_boxes
      (stepB data sbl (stepA data sb s row i) row i) row).short_boxes,
      b.1 < i := by
    rw [detect_long_boxes_short_boxes]
    exact hQB.2.1
  have hC_l : ∀ b ∈ (detect_long_boxes
      (stepB data sbl (stepA data sb s row i) row i) row).long_boxes,
      b.1 < i :=
    fun b hb => hQB.2.2.1 b (detect_long_boxes_long_mem b hb)
  have hC_line : ∀ l ∈ (detect_long_boxes
      (stepB data sbl (stepA data sb s row i) row i) row).bos_lines,
      l.1 < l.2.2.1 := by
    rw [detect_long_boxes_bos_lines]
    exact hQB.2.2.2
  -- Step D
  refine ⟨?_, ?_, ?_, ?_, ?_⟩
  · rw [update_last_indices_last_up_index]
    split
    · exact Nat.lt_succ_self i
    · rw [hCsw.2.2.2.1]
      exact Nat.lt_succ_of_lt hu
  · rw [update_last_indices_last_down_index]
    split
    · exact Nat.lt_succ_self i
    · rw [hCsw.1]
      exact Nat.lt_succ_of_lt hd
  · rw [update_last_indices_short_boxes]
    exact fun b hb => Nat.lt_succ_of_lt (hC_s b hb)
  · rw [update_last_indices_long_boxes]
    exact fun b hb => Nat.lt_succ_of_lt (hC_l b hb)
  · rw [update_last_indices_bos_lines]
    exact hC_line

/-- **C6.** For every input with strictly increasing timestamps, at every
iteration boundary of the scan the remembered swing indices and every live
order block's anchor index are strictly below the current scan position
`RANGE_CANDLE + k` — and, since a box created at iteration `i` is anchored
at `last_up_index` resp. `last_down_index` as they stand when the iteration
begins (Steps A–C do not write them), every block ever created has
`anchorIndex < i_created` — and every BOS line ever emitted has
`fromTime < toTime`. -/
theorem anchor_precedes_trigger (data : List Candle) (sb sbl : Bool)
    (ht : StrictTimes data) :
    ∀ k, RANGE_CANDLE + k ≤ data.length →
    (scanState data sb sbl k).last_up_index < RANGE_CANDLE + k ∧
    (scanState data sb sbl k).last_down_index < RANGE_CANDLE + k ∧
    (∀ b ∈ (scanState data sb sbl k).short_boxes, b.1 < RANGE_CANDLE + k) ∧
    (∀ b ∈ (scanState data sb sbl k).long_boxes, b.1 < RANGE_CANDLE + k) ∧
    (∀ l ∈ (scanState data sb sbl k).bos_lines, l.1 < l.2.2.1) := by
  intro k
  induction k with
  | zero =>
    intro _
    exact ⟨show initState.last_up_index < RANGE_CANDLE + 0 by decide,
      show initState.last_down_index < RANGE_CANDLE + 0 by decide,
      fun b hb => absurd hb (List.not_mem_nil b),
      fun b hb => absurd hb (List.not_mem_nil b),
      fun l hl => absurd hl (List.not_mem_nil l)⟩
  | succ k ih =>
    intro hk
    have hk' : RANGE_CANDLE + k ≤ data.length := by omega
    have hik : RANGE_CANDLE + k < data.length := by omega
    obtain ⟨a1, a2, a3, a4, a5⟩ := ih hk'
    rw [scanState_succ]
    exact loopBody_preserves_anchors data sb sbl (RANGE_CANDLE + k) hik ht
      _ a1 a2 a3 a4 a5

/-- Witness for C6, on `data1` (timestamps `0, 1, ..., 18`). -/
theorem anchor_precedes_trigger_witness :
    (StrictTimes data1 ∧ RANGE_CANDLE + 4 ≤ data1.length) ∧
    (∀ l ∈ (scanState data1 true true 4).bos_lines, l.1 < l.2.2.1) :=
  ⟨⟨by decide, by decide⟩,
    (anchor_precedes_trigger data1 true true (by decide) 4
      (by decide)).2.2.2.2⟩

theorem SameExceptLines.lines_refl (s : DetectorState) : SameExceptLines s s :=
  ⟨Eq.refl _, Eq.refl _, Eq.refl _, Eq.refl _, Eq.refl _, Eq.refl _,
    Eq.refl _, Eq.refl _, Eq.refl _⟩

theorem stepA_rel (data : List Candle) (b1 b1' : Bool) (row : Candle)
    (i : Nat) {s t : DetectorState} (h : SameExceptLines s t) :
    SameExceptLines (stepA data b1 s row i) (stepA data b1' t row i) := by
  obtain ⟨e1, e2, e3, e4, e5, e6, e7, e8, e9⟩ := h
  have hs := stepA_swing data b1 s row i
  have ht := stepA_swing data b1' t row i
  refine ⟨?_, ?_, ?_, ?_, ?_, ?_, ?_, ?_, ?_⟩
  · rw [stepA_long_boxes, stepA_long_boxes, e1]
  · rw [stepA_short_boxes, stepA_short_boxes, e2, e6, e8, e9]
  · rw [hs.1, ht.1, e3]
  · rw [hs.2.1, ht.2.1, e4]
  · rw [hs.2.2.1, ht.2.2.1, e5]
  · rw [hs.2.2.2.1, ht.2.2.2.1, e6]
  · rw [stepA_last_long_index, stepA_last_long_index, e7]
  · rw [hs.2.2.2.2.1, ht.2.2.2.2.1, e8]
  · rw [hs.2.2.2.2.2, ht.2.2.2.2.2, e9]

theorem shortLoopStep_rel (data : List Candle) (b2 b2' : Bool) (row : Candle)
    (i : Nat) (box : Box) {s t : DetectorState} (h : SameExceptLines s t) :
    SameExceptLines (shortLoopStep data b2 row i s box)
      (shortLoopStep data b2' row i t box) := by
  obtain ⟨e1, e2, e3, e4, e5, e6, e7, e8, e9⟩ := h
  have hs := shortLoopStep_swing data b2 row i s box
  have ht := shortLoopStep_swing data b2' row i t box
  refine ⟨?_, ?_, ?_, ?_, ?_, ?_, ?_, ?_, ?_⟩
  · rw [shortLoopStep_long_boxes, shortLoopStep_long_boxes, e1, e3, e4, e5,
      e7]
  · rw [shortLoopStep_short_boxes, shortLoopStep_short_boxes, e2]
  · rw [hs.1, ht.1, e3]
  · rw [hs.2.1, ht.2.1, e4]
  · rw [hs.2.2.1, ht.2.2.1, e5]
  · rw [hs.2.2.2.1, ht.2.2.2.1, e6]
  · rw [shortLoopStep_last_long_index, shortLoopStep_last_long_index, e3, e7]
  · rw [hs.2.2.2.2.1, ht.2.2.2.2.1, e8]
  · rw [hs.2.2.2.2.2, ht.2.2.2.2.2, e9]

theorem stepB_rel (data : List Candle) (b2 b2' : Bool) (row : Candle)
    (i : Nat) {s t : DetectorState} (h : SameExceptLines s t) :
    SameExceptLines (stepB data b2 s row i) (stepB data b2' t row i) := by
  unfold stepB
  rw [← h.2.1]
  exact foldl_rel (fun s' t' box h' => shortLoopStep_rel data b2 b2' row i
    box h') _ s t h

theorem detect_long_boxes_rel (row : Candle) {s t : DetectorState}
    (h : SameExceptLines s t) :
    SameExceptLines (detect_long_boxes s row) (detect_long_boxes t row) := by
  unfold detect_long_boxes
  rw [← h.1]
  refine foldl_rel ?_ _ s t h
  rintro s' t' box ⟨e1, e2, e3, e4, e5, e6, e7, e8, e9⟩
  split
  · exact ⟨show s'.long_boxes.erase box = t'.long_boxes.erase box by
      rw [e1], e2, e3, e4, e5, e6, e7, e8, e9⟩
  · exact ⟨e1, e2, e3, e4, e5, e6, e7, e8, e9⟩

theorem update_last_indices_rel (row : Candle) (i : Nat)
    {s t : DetectorState} (h : SameExceptLines s t) :
    SameExceptLines (update_last_indices s row i)
      (update_last_indices t row i) := by
  obtain ⟨e1, e2, e3, e4, e5, e6, e7, e8, e9⟩ := h
  refine ⟨?_, ?_, ?_, ?_, ?_, ?_, ?_, ?_, ?_⟩
  · rw [update_last_indices_long_boxes, update_last_indices_long_boxes, e1]
  · rw [update_last_indices_short_boxes, update_last_indices_short_boxes, e2]
  · rw [update_last_indices_last_down_index,
      update_last_indices_last_down_index, e3]
  · rw [update_last_indices_last_down, update_last_indices_last_down, e4]
  · rw [update_last_indices_last_low, update_last_indices_last_low, e5]
  · rw [update_last_indices_last_up_index, update_last_indices_last_up_index,
      e6]
  · rw [update_last_indices_last_long_index,
      update_last_indices_last_long_index, e7]
  · rw [update_last_indices_last_up_low, update_last_indices_last_up_low, e8]
  · rw [update_last_indices_last_high, update_last_indices_last_high, e9]

theorem loopBody_rel (data : List Candle) (b1 b2 b1' b2' : Bool) (i : Nat)
    {s t : DetectorState} (h : SameExceptLines s t) :
    SameExceptLines (loopBody data b1 b2 s i) (loopBody data b1' b2' t i) :=
  update_last_indices_rel _ i
    (detect_long_boxes_rel _
      (stepB_rel data b2 b2' _ i (stepA_rel data b1 b1' _ i h)))

theorem scanState_rel (data : List Candle) (b1 b2 b1' b2' : Bool) (k : Nat) :
    SameExceptLines (scanState data b1 b2 k) (scanState data b1' b2' k) := by
  unfold scanState
  exact foldl_rel (fun s t i h => loopBody_rel data b1 b2 b1' b2' i h)
    _ _ _ (SameExceptLines.lines_refl initState)

theorem loopBody_mode0 (data : List Candle) (sbl : Bool) (i : Nat)
    (s : DetectorState) (h : ∀ l ∈ s.bos_lines, l.2.2.2.2 ≠ 0) :
    ∀ l ∈ (loopBody data false sbl s i).bos_lines, l.2.2.2.2 ≠ 0 := by
  set row := data.getD i default
  have hlb : loopBody data false sbl s i =
      update_last_indices
        (detect_long_boxes
          (stepB data sbl (stepA data false s row i) row i) row) row i := rfl
  rw [hlb, update_last_indices_bos_lines, detect_long_boxes_bos_lines]
  have hA : ∀ l ∈ (stepA data false s row i).bos_lines, l.2.2.2.2 ≠ 0 := by
    rw [stepA_bos_lines, if_neg]
    · exact h
    · rintro ⟨-, -, hff⟩
      exact Bool.false_ne_true hff
  unfold stepB
  refine foldl_inv (P := fun (t : DetectorState) =>
    ∀ l ∈ t.bos_lines, l.2.2.2.2 ≠ 0) ?_ _ _ hA
  intro t box htl
  rw [shortLoopStep_bos_lines]
  split
  · intro l hl
    rcases List.mem_append.1 hl with hl | hl
    · exact htl l hl
    · rw [List.mem_singleton.1 hl]
      exact one_ne_zero
  · exact htl

theorem loopBody_mode1 (data : List Candle) (sb : Bool) (i : Nat)
    (s : DetectorState) (h : ∀ l ∈ s.bos_lines, l.2.2.2.2 ≠ 1) :
    ∀ l ∈ (loopBody data sb false s i).bos_lines, l.2.2.2.2 ≠ 1 := by
  set row := data.getD i default
  have hlb : loopBody data sb false s i =
      update_last_indices
        (detect_long_boxes
          (stepB data false (stepA data sb s row i) row i) row) row i := rfl
  rw [hlb, update_last_indices_bos_lines, detect_long_boxes_bos_lines]
  have hA : ∀ l ∈ (stepA data sb s row i).bos_lines, l.2.2.2.2 ≠ 1 := by
    rw [stepA_bos_lines]
    split
    · intro l hl
      rcases List.mem_append.1 hl with hl | hl
      · exact h l hl
      · rw [List.mem_singleton.1 hl]
        exact zero_ne_one
    · exact h
  unfold stepB
  refine foldl_inv (P := fun (t : DetectorState) =>
    ∀ l ∈ t.bos_lines, l.2.2.2.2 ≠ 1) ?_ _ _ hA
  intro t box htl
  rw [shortLoopStep_bos_lines, if_neg]
  · exact htl
  · rintro ⟨-, -, hff⟩
    exact Bool.false_ne_true hff

/-- **C7.** The two line-emission flags gate only the BOS-line list, never
block creation or invalidation: for any two flag settings the scan states
agree on every field except `bos_lines` (in particular the long and short
box collections and the `last_long_index` guard evolve identically), with
`show_bearish_bos = false` no bearish (mode-0) line is ever emitted, and
with `show_bullish_bos = false` no bullish (mode-1) line is ever emitted. -/
theorem flags_gate_only_lines (data : List Candle) (b1 b2 b1' b2' : Bool)
    (k : Nat) :
    SameExceptLines (scanState data b1 b2 k) (scanState data b1' b2' k) ∧
    (∀ l ∈ (detect_order_blocks_bos data false b2).2.2, l.2.2.2.2 ≠ 0) ∧
    (∀ l ∈ (detect_order_blocks_bos data b1 false).2.2, l.2.2.2.2 ≠ 1) ∧
    (detect_order_blocks_bos data b1 b2).1 =
      (detect_order_blocks_bos data b1' b2').1 ∧
    (detect_order_blocks_bos data b1 b2).2.1 =
      (detect_order_blocks_bos data b1' b2').2.1 := by
  refine ⟨scanState_rel data b1 b2 b1' b2' k, ?_, ?_,
    (scanState_rel data b1 b2 b1' b2' (data.length - RANGE_CANDLE)).1,
    (scanState_rel data b1 b2 b1' b2' (data.length - RANGE_CANDLE)).2.1⟩
  · show ∀ l ∈ (scanState data false b2 (data.length - RANGE_CANDLE)).bos_lines,
      l.2.2.2.2 ≠ 0
    unfold scanState
    refine foldl_inv (P := fun s => ∀ l ∈ s.bos_lines, l.2.2.2.2 ≠ 0)
      (fun t a htl => loopBody_mode0 data b2 a t htl) _ _ ?_
    exact fun l hl => absurd hl (List.not_mem_nil l)
  · show ∀ l ∈ (scanState data b1 false (data.length - RANGE_CANDLE)).bos_lines,
      l.2.2.2.2 ≠ 1
    unfold scanState
    refine foldl_inv (P := fun s => ∀ l ∈ s.bos_lines, l.2.2.2.2 ≠ 1)
      (fun t a htl => loopBody_mode1 data b1 a t htl) _ _ ?_
    exact fun l hl => absurd hl (List.not_mem_nil l)

/-- Witness for C7: on `demoData0` with bearish lines disabled, the bullish
line is still emitted and indeed has mode `≠ 0`. -/
theorem flags_gate_only_lines_witness :
    (((0 : Int), (0 : ℚ), (15 : Int), (0 : ℚ), (1 : Nat)) ∈
      (detect_order_blocks_bos demoData0 false true).2.2) ∧
    (((0 : Int), (0 : ℚ), (15 : Int), (0 : ℚ), (1 : Nat)) : BosLine).2.2.2.2 ≠
      0 := by
  have hmem : (((0 : Int), (0 : ℚ), (15 : Int), (0 : ℚ), (1 : Nat)) :
      BosLine) ∈ (detect_order_blocks_bos demoData0 false true).2.2 := by
    decide
  exact ⟨hmem,
    (flags_gate_only_lines demoData0 true true true true 0).2.1 _ hmem⟩

/-- **C8.** The prepared `StructureLow` value at a position `RANGE_CANDLE ≤ i`
(within the series) is exactly the minimum Low over the trailing window of
`RANGE_CANDLE` values at positions `i - RANGE_CANDLE .. i - 1` — the window
ends one candle before `i`, so position `i`'s own low is never consulted —
stated as: the value is attained at some window position and is a lower
bound for every window position.  For every `i < RANGE_CANDLE` the value is
missing (`NaN` in pandas). -/
theorem structure_low_spec (low : List ℚ) (i : Nat) :
    (RANGE_CANDLE ≤ i → i ≤ low.length →
      ∃ m, calculate_structure_low low i = some m ∧
        (∀ j, i - RANGE_CANDLE ≤ j → j < i → m ≤ low.getD j 0) ∧
        (∃ j, i - RANGE_CANDLE ≤ j ∧ j < i ∧ low.getD j 0 = m)) ∧
    (i < RANGE_CANDLE → calculate_structure_low low i = none) := by
  constructor
  · intro h15 hlen
    have h15' : (15 : Nat) ≤ i := h15
    have hi0 : i ≠ 0 := by omega
    have hval : calculate_structure_low low i =
        ((low.drop (i - 15)).take 15).min? := by
      unfold calculate_structure_low rolling_min RANGE_CANDLE
      rw [if_neg hi0, if_pos ⟨by omega, by omega⟩]
      have harith : i - 1 + 1 - 15 = i - 15 := by omega
      rw [harith]
    have hwlen : 0 < ((low.drop (i - 15)).take 15).length := by
      rw [List.length_take, List.length_drop]
      rw [Nat.lt_min]
      omega
    obtain ⟨m, hm⟩ : ∃ m, ((low.drop (i - 15)).take 15).min? = some m := by
      cases hsome : ((low.drop (i - 15)).take 15).min? with
      | none =>
        rw [List.min?_eq_none_iff.1 hsome] at hwlen
        exact absurd hwlen (by simp)
      | some m => exact ⟨m, rfl⟩
    have hm_iff := (@List.min?_eq_some_iff ℚ m _ _
      ⟨fun h1 h2 => le_antisymm h1 h2⟩ (fun a => le_refl a)
      (fun a b => min_choice a b) (fun a b c => le_min_iff)
      ((low.drop (i - 15)).take 15)).1 hm
    refine ⟨m, by rw [hval, hm], ?_, ?_⟩
    · intro j hj1 hj2
      have hj1' : i - 15 ≤ j := hj1
      have hjlen : j < low.length := lt_of_lt_of_le hj2 hlen
      rw [List.getD_eq_getElem low 0 hjlen]
      apply hm_iff.2
      rw [List.mem_iff_getElem]
      have hidx : j - (i - 15) < ((low.drop (i - 15)).take 15).length := by
        rw [List.length_take, List.length_drop, Nat.lt_min]
        constructor <;> omega
      refine ⟨j - (i - 15), hidx, ?_⟩
      rw [List.getElem_take, List.getElem_drop]
      have : i - 15 + (j - (i - 15)) = j := by omega
      simp only [this]
    · obtain ⟨idx, hidx, hw⟩ := List.mem_iff_getElem.1 hm_iff.1
      have hidx' : idx < 15 ∧ idx < low.length - (i - 15) := by
        rw [List.length_take, List.length_drop, Nat.lt_min] at hidx
        exact hidx
      rw [List.getElem_take, List.getElem_drop] at hw
      refine ⟨i - 15 + idx, show i - 15 ≤ i - 15 + idx by omega,
        by omega, ?_⟩
      rw [List.getD_eq_getElem low 0 (by omega)]
      exact hw
  · intro hlt
    have hlt' : i < 15 := hlt
    by_cases h0 : i = 0
    · simp [calculate_structure_low, h0]
    · unfold calculate_structure_low rolling_min
      rw [if_neg h0, if_neg]
      rintro ⟨hc, -⟩
      have hc' : (15 : Nat) ≤ i - 1 + 1 := hc
      omega

/-- Witness for C8, on the concrete Low series `lows0` at `i = 15`. -/
theorem structure_low_spec_witness :
    (RANGE_CANDLE ≤ 15 ∧ (15 : Nat) ≤ lows0.length) ∧
    (∃ m, calculate_structure_low lows0 15 = some m ∧
      (∀ j, 15 - RANGE_CANDLE ≤ j → j < 15 → m ≤ lows0.getD j 0) ∧
      (∃ j, 15 - RANGE_CANDLE ≤ j ∧ j < 15 ∧ lows0.getD j 0 = m)) :=
  ⟨⟨by decide, by decide⟩,
    (structure_low_spec lows0 15).1 (by decide) (by decide)⟩

theorem count_le_foldl_shortLoopStep (data : List Candle) (sbl : Bool)
    (row : Candle) (i : Nat) (b : Box) (hc : row.Close > b.2.1) :
    ∀ (l : List Box) (t : DetectorState),
      t.short_boxes.count b ≤ l.count b →
      (l.foldl (shortLoopStep data sbl row i) t).short_boxes.count b = 0 := by
  intro l
  induction l with
  | nil =>
    intro t hle
    simp only [List.foldl_nil]
    simp only [List.count_nil] at hle
    omega
  | cons x l ih =>
    intro t hle
    rw [List.foldl_cons]
    apply ih
    by_cases hxb : x = b
    · subst hxb
      rw [shortLoopStep_short_boxes, if_pos hc, List.count_erase_self]
      rw [List.count_cons_self] at hle
      omega
    · rw [List.count_cons_of_ne (fun h => hxb h.symm)] at hle
      rw [shortLoopStep_short_boxes]
      split
      · rw [List.count_erase_of_ne (fun h => hxb h.symm)]
        exact hle
      · exact hle

theorem loopBody_last_up (data : List Candle) (sb sbl : Bool) (i : Nat)
    (s : DetectorState)
    (h : ¬ (data.getD i default).Close > (data.getD i default).Open) :
    (loopBody data sb sbl s i).last_up_index = s.last_up_index ∧
    (loopBody data sb sbl s i).last_up_low = s.last_up_low := by
  set row := data.getD i default
  have hlb : loopBody data sb sbl s i =
      update_last_indices
        (detect_long_boxes
          (stepB data sbl (stepA data sb s row i) row i) row) row i := rfl
  rw [hlb]
  have hsw : SameSwing s (detect_long_boxes
      (stepB data sbl (stepA data sb s row i) row i) row) :=
    ((stepA_swing data sb s row i).trans
      (stepB_swing data sbl (stepA data sb s row i) row i)).trans
      (detect_long_boxes_swing _ row)
  constructor
  · rw [update_last_indices_last_up_index, if_neg h, hsw.2.2.2.1]
  · rw [update_last_indices_last_up_low, if_neg h, hsw.2.2.2.2.1]

/-- **C9.** A bearish structure break scanned before any bullish candle has
been scanned creates a short block from the zero-initialised swing state:
while no bullish candle has been scanned, `last_up_index` and `last_up_low`
are still `0`, so the created block has `anchorIndex = 0` and `bottom = 0`
(and any bearish line lies at price `0`); on the very first scanned candle
(`i = RANGE_CANDLE`, state still `initState`) the created block is exactly
`(0, 0, 0)` with `top = 0` as well; a short box whose top the close exceeds
is removed by that candle's Step B; and on `demoData0` (all prices
positive) the `(0, 0, 0)` short box is invalidated by the very candle that
created it, which in turn triggers creation of the long box `(0, 0, 0)`
from the zero-initialised down-candle state, both zero-price lines being
emitted. -/
theorem zero_state_artifacts :
    (∀ (data : List Candle) (sb sbl : Bool) (k : Nat),
      (∀ j, j < k → ¬ (data.getD (RANGE_CANDLE + j) default).Close >
        (data.getD (RANGE_CANDLE + j) default).Open) →
      (scanState data sb sbl k).last_up_index = 0 ∧
      (scanState data sb sbl k).last_up_low = 0) ∧
    (∀ (data : List Candle) (sb : Bool) (row : Candle),
      row.Low < row.StructureLow →
      (stepA data sb initState row RANGE_CANDLE).short_boxes = [(0, 0, 0)]) ∧
    (∀ (data : List Candle) (sbl : Bool) (s : DetectorState) (row : Candle)
      (i : Nat) (b : Box), b ∈ s.short_boxes → row.Close > b.2.1 →
      b ∉ (stepB data sbl s row i).short_boxes) ∧
    ((detect_order_blocks_bos demoData0 true true).1 = [(0, 0, 0)] ∧
      (detect_order_blocks_bos demoData0 true true).2.1 = [] ∧
      (detect_order_blocks_bos demoData0 true true).2.2 =
        [(0, 0, 15, 0, 0), (0, 0, 15, 0, 1)]) := by
  refine ⟨?_, ?_, ?_, by decide⟩
  · intro data sb sbl k
    induction k with
    | zero => exact fun _ => ⟨rfl, rfl⟩
    | succ k ih =>
      intro h
      have hk := ih (fun j hj => h j (Nat.lt_succ_of_lt hj))
      rw [scanState_succ]
      have hrow := h k (Nat.lt_succ_self k)
      have hlu := loopBody_last_up data sb sbl (RANGE_CANDLE + k)
        (scanState data sb sbl k) hrow
      exact ⟨hlu.1.trans hk.1, hlu.2.trans hk.2⟩
  · intro data sb row h
    rw [stepA_short_boxes, if_pos ⟨h, by decide⟩]
    rfl
  · intro data sbl s row i b hb hc
    have h0 := count_le_foldl_shortLoopStep data sbl row i b hc
      s.short_boxes s (le_refl _)
    unfold stepB
    rw [← List.count_eq_zero]
    exact h0

/-- Witness for C9: on `demoData0` no bullish candle is scanned before the
break, and the break candle creates exactly the block `(0, 0, 0)`. -/
theorem zero_state_artifacts_witness :
    ((∀ j, j < 1 → ¬ (demoData0.getD (RANGE_CANDLE + j) default).Close >
        (demoData0.getD (RANGE_CANDLE + j) default).Open) ∧
      (scanState demoData0 true true 1).last_up_index = 0) ∧
    ((8 : ℚ) < 9 ∧
      (stepA demoData0 true initState ⟨15, 10, 10, 8, 10, 9⟩
        RANGE_CANDLE).short_boxes = [(0, 0, 0)]) := by
  refine ⟨⟨by decide, ?_⟩, ⟨by norm_num, ?_⟩⟩
  · exact (zero_state_artifacts.1 demoData0 true true 1 (by decide)).1
  · exact zero_state_artifacts.2.1 demoData0 true ⟨15, 10, 10, 8, 10, 9⟩
      (by norm_num)

end TechInd
